import Mathlib

/-!
Shallow embedding of the presence-detection core of
`homebridge-unifi-occupancy-lite` (files `src/resident.ts`,
`src/unifi-client.ts`, `src/platform.ts`), together with theorems settling
the specification claims.

Modelling conventions:
* JavaScript values that may be `undefined`/`null` are `Option _`.
  A JS falsy string (`undefined` or the empty string) is modelled as
  `none`; the model is only instantiated at non-empty strings.
* Timestamps (`new Date()`) are an abstract `now : Nat` parameter.
* Network outcomes are oracles `String → Option payload` from the endpoint
  path to the unwrapped JSON payload; `none` is a rejected request
  (transport failure, HTTP status ≥ 400, or a body-parse failure — the
  calling code treats all three identically).
* JS `a / 1024 >= b` on integer byte counters is exact real arithmetic
  (division by a power of two of integers below 2^53 is exact in IEEE
  doubles); it is embedded as the equivalent integer comparison
  `1024 * b ≤ a`, with the equivalence to the rational-division form
  proved as `trafficThreshold_eq_rat`.
-/

namespace UnifiOccupancy

/-- JavaScript `String.prototype.toLowerCase` restricted to the ASCII range,
written over the character list so that it reduces in the kernel. -/
def jsToLower (s : String) : String :=
  String.mk (s.data.map Char.toLower)

/-- Raw controller-reported client record (the fields the core reads). -/
structure Client where
  mac : Option String := none
  ip : Option String := none
  hostname : Option String := none
  clientName : Option String := none
  ap_mac : Option String := none
  sw_mac : Option String := none
  uplink_mac : Option String := none
  access_point_mac : Option String := none
deriving Repr, DecidableEq

/-- Raw access-point record (the fields `matchesAccessPoint` reads). -/
structure AccessPoint where
  mac : Option String := none
  ip : Option String := none
deriving Repr, DecidableEq

/-- Traffic counters returned by `getClientTrafficLast15Min`. -/
structure TrafficData where
  rx_bytes : Nat
  tx_bytes : Nat
deriving Repr, DecidableEq

/-- `Device` from `src/resident.ts`: configured identity plus the mutable
per-cycle presence fields. -/
structure Device where
  name : String
  hostname : Option String := none
  ip : Option String := none
  mac : Option String := none
  minTrafficAmount : Option Nat := none
  lastSeen : Option Nat := none
  isOnline : Bool := false
  currentAccessPoint : Option String := none
  trafficBytes : Nat := 0
deriving Repr, DecidableEq

/-- `Device.matchesClient` from `src/resident.ts` lines 42–66: four guarded
early-return checks, i.e. a disjunction. Each check fires only when both
the configured field and the raw field are present (JS truthiness). -/
def Device.matchesClient (d : Device) (c : Client) : Bool :=
  (match d.mac, c.mac with
   | some dm, some cm => jsToLower dm == jsToLower cm
   | _, _ => false) ||
  (match d.ip, c.ip with
   | some di, some ci => di == ci
   | _, _ => false) ||
  (match d.hostname, c.hostname with
   | some dh, some ch => jsToLower dh == jsToLower ch
   | _, _ => false) ||
  (match d.hostname, c.clientName with
   | some dh, some cn => jsToLower dh == jsToLower cn
   | _, _ => false)

/-- `Device.updateFromClient` from `src/resident.ts` lines 71–90. -/
def Device.updateFromClient (d : Device) (now : Nat) (c : Client)
    (trafficData : Option TrafficData) : Device :=
  let d := { d with
    isOnline := true
    lastSeen := some now
    currentAccessPoint :=
      (c.ap_mac <|> c.sw_mac <|> c.uplink_mac <|> c.access_point_mac) }
  let d := match trafficData with
    | some t => { d with trafficBytes := t.rx_bytes + t.tx_bytes }
    | none => d
  match d.minTrafficAmount with
  | some m =>
    if m > 0 then
      -- JS: trafficBytes / 1024 >= minTrafficAmount, exact over the reals;
      -- equivalent Nat form (see lemma trafficThreshold_eq_rat below)
      { d with isOnline := d.isOnline && decide (1024 * m ≤ d.trafficBytes) }
    else d
  | none => d

/-- `Resident` from `src/resident.ts`: a name, its configured devices, and
the derived `isHome` flag. -/
structure Resident where
  name : String
  devices : List Device := []
  isHome : Bool := false
deriving Repr, DecidableEq

/-- `Resident.updatePresence`: `isHome = devices.some(d => d.isOnline)`. -/
def Resident.updatePresence (r : Resident) : Resident :=
  { r with isHome := r.devices.any (fun d => d.isOnline) }

/-- `Resident.getDevicesAtAccessPoint`: devices that are online and
associated with the given access-point MAC. -/
def Resident.getDevicesAtAccessPoint (r : Resident) (accessPointMac : String) :
    List Device :=
  r.devices.filter (fun d =>
    d.isOnline && d.currentAccessPoint == some accessPointMac)

/-- `WifiPoint` from `src/resident.ts`: a configured location with optional
MAC/IP identity and the derived `hasResidents` flag. -/
structure WifiPoint where
  name : String
  ip : Option String := none
  mac : Option String := none
  hasResidents : Bool := false
deriving Repr, DecidableEq

/-- `WifiPoint.matchesAccessPoint`: MAC case-insensitively, else IP exactly,
each check requiring both sides present (JS truthiness). -/
def WifiPoint.matchesAccessPoint (w : WifiPoint) (ap : AccessPoint) : Bool :=
  (match w.mac, ap.mac with
   | some wm, some am => jsToLower wm == jsToLower am
   | _, _ => false) ||
  (match w.ip, ap.ip with
   | some wi, some ai => wi == ai
   | _, _ => false)

/-- `WifiPoint.updatePresence` from `src/resident.ts` lines 153–162: with no
MAC force `hasResidents = false`; otherwise true iff some resident has a
device (online, per `getDevicesAtAccessPoint`) at this MAC. -/
def WifiPoint.updatePresence (w : WifiPoint) (residents : List Resident) :
    WifiPoint :=
  match w.mac with
  | none => { w with hasResidents := false }
  | some m =>
    { w with hasResidents :=
        residents.any (fun r => (r.getDevicesAtAccessPoint m).length > 0) }

/-! ## The per-cycle refresh (`UnifiOccupancyPlatform.refresh`,
`src/platform.ts` lines 230–335) -/

/-- The per-device body of the resident loop in `refresh`: reset the mutable
fields, look for the first matching client, fetch a traffic sample when a
positive threshold is configured, and apply `updateFromClient`.
`traffic` is the outcome oracle of `getClientTrafficLast15Min`, applied to
the matching client's MAC (`none` = no sample retrievable). -/
def refreshDevice (now : Nat) (clients : List Client)
    (traffic : Option String → Option TrafficData) (d : Device) : Device :=
  let d := { d with isOnline := false, currentAccessPoint := none }
  match clients.find? (fun c => d.matchesClient c) with
  | some matchingClient =>
    let trafficData :=
      match d.minTrafficAmount with
      | some m => if m > 0 then traffic matchingClient.mac else none
      | none => none
    d.updateFromClient now matchingClient trafficData
  | none => d

/-- The per-resident body of `refresh`: update every device, then recompute
`isHome`. -/
def refreshResident (now : Nat) (clients : List Client)
    (traffic : Option String → Option TrafficData) (r : Resident) : Resident :=
  Resident.updatePresence
    { r with devices := r.devices.map (refreshDevice now clients traffic) }

/-- The wifi-point MAC-resolution loop of `refresh` (lines 308–313): the
first matching fetched access point overwrites `wifiPoint.mac`. -/
def resolveWifiPointMac (accessPoints : List AccessPoint) (w : WifiPoint) :
    WifiPoint :=
  match accessPoints.find? (fun ap => w.matchesAccessPoint ap) with
  | some matchingAP => { w with mac := matchingAP.mac }
  | none => w

/-- Presence state owned by the platform: the configured residents and wifi
points. -/
structure PlatformState where
  residents : List Resident
  wifiPoints : List WifiPoint
deriving Repr, DecidableEq

/-- The body of a successful `refresh` cycle: update residents from the
fetched clients, resolve wifi-point MACs from the fetched access points,
then let each wifi-point accessory handler recompute `hasResidents` from
the updated residents. -/
def refreshCycleBody (now : Nat) (clients : List Client)
    (accessPoints : List AccessPoint)
    (traffic : Option String → Option TrafficData)
    (st : PlatformState) : PlatformState :=
  let residents := st.residents.map (refreshResident now clients traffic)
  let wifiPoints := st.wifiPoints.map (resolveWifiPointMac accessPoints)
  let wifiPoints := wifiPoints.map (fun w => w.updatePresence residents)
  { residents := residents, wifiPoints := wifiPoints }

/-- `refresh` with the surrounding try/catch: the two fetches are awaited
before any state is mutated, so if either rejects the cycle is abandoned
with the state unchanged (the catch at the end of `refresh` only logs). -/
def refresh (now : Nat) (clientsResult : Except Unit (List Client))
    (accessPointsResult : Except Unit (List AccessPoint))
    (traffic : Option String → Option TrafficData)
    (st : PlatformState) : PlatformState :=
  match clientsResult, accessPointsResult with
  | .ok clients, .ok accessPoints =>
    refreshCycleBody now clients accessPoints traffic st
  | _, _ => st

/-! ## The controller client (`UniFiLiteClient`, `src/unifi-client.ts`)

A network oracle `get : String → Option α` gives, for each endpoint path,
the unwrapped payload of `this.get(path)` (`none` = the promise rejected:
transport failure, HTTP ≥ 400, or JSON parse failure — the fallback loops
treat all three alike). -/

/-- Raw site record (`getSites` payload entry). -/
structure Site where
  siteName : Option String := none
deriving Repr, DecidableEq

/-- The sequential endpoint-fallback loop shared by `getSites`,
`getClients` and `getNetworkDevices` (local controller): try each endpoint
in order, return the first successful payload together with the endpoint
that produced it. -/
def tryEndpoints (get : String → Option α) : List String → Option (String × α)
  | [] => none
  | e :: rest =>
    match get e with
    | some r => some (e, r)
    | none => tryEndpoints get rest

/-- The endpoints the fallback loop actually issues a request to: every
endpoint up to and including the first successful one (all of them when
every request fails). -/
def attemptedEndpoints (get : String → Option α) : List String → List String
  | [] => []
  | e :: rest =>
    match get e with
    | some _ => [e]
    | none => e :: attemptedEndpoints get rest

/-- The candidate client-listing endpoints of `getClients` (local
controller), in source order (`src/unifi-client.ts` lines 224–234). -/
def clientEndpoints (site : String) : List String :=
  [ "/api/s/" ++ site ++ "/clients/active"
  , "/api/s/" ++ site ++ "/stat/alluser"
  , "/api/s/" ++ site ++ "/stat/sta"
  , "/api/stat/sta"
  , "/api/clients/active"
  , "/api/stat/alluser"
  , "/api/s/default/clients/active"
  , "/api/s/default/stat/alluser"
  , "/api/s/default/stat/sta" ]

/-- The candidate device-listing endpoints of `getNetworkDevices` (local
controller), in source order (lines 280–287). -/
def deviceEndpoints (site : String) : List String :=
  [ "/api/s/" ++ site ++ "/stat/device"
  , "/api/s/" ++ site ++ "/device"
  , "/api/stat/device"
  , "/api/device"
  , "/api/s/default/stat/device"
  , "/api/s/default/device" ]

/-- The candidate site-listing endpoints of `getSites` (local controller),
in source order (lines 172–176). -/
def siteEndpoints : List String :=
  [ "/api/stat/sites"
  , "/api/sites"
  , "/api/self/sites" ]

/-- `getClients` (local controller branch, lines 222–250): try the
candidate endpoints in order; if every one fails, return the empty array.
The method keeps no state: every call starts from the first candidate.
The `Except Unit` result type records that the promise can in principle
reject — the body shows it never does. -/
def getClientsLocal (get : String → Option (List Client)) (site : String) :
    Except Unit (List Client) :=
  .ok (match tryEndpoints get (clientEndpoints site) with
       | some (_, r) => r
       | none => [])

/-- `getNetworkDevices` (local controller branch, lines 278–303). -/
def getNetworkDevicesLocal (get : String → Option (List AccessPoint))
    (site : String) : Except Unit (List AccessPoint) :=
  .ok (match tryEndpoints get (deviceEndpoints site) with
       | some (_, r) => r
       | none => [])

/-- `getSites` (local controller branch, lines 170–192): try the candidate
endpoints in order; if every one fails, return the default-site singleton
rather than rejecting. -/
def getSitesLocal (get : String → Option (List Site)) :
    Except Unit (List Site) :=
  .ok (match tryEndpoints get siteEndpoints with
       | some (_, r) => r
       | none => [{ siteName := some "default" }])

/-- `testConnection` (local controller branch, lines 397–427): try
`getSites`, on rejection `getNetworkDevices`, on rejection `getClients`;
true at the first resolved call, false when all three reject. -/
def testConnectionLocal (getS : String → Option (List Site))
    (getD : String → Option (List AccessPoint))
    (getC : String → Option (List Client)) (site : String) : Bool :=
  match getSitesLocal getS with
  | .ok _ => true
  | .error _ =>
    match getNetworkDevicesLocal getD site with
    | .ok _ => true
    | .error _ =>
      match getClientsLocal getC site with
      | .ok _ => true
      | .error _ => false

/-- `testConnection` (Site Manager branch, lines 394–396 with the outer
catch): true iff the single `getDevices` call resolves. -/
def testConnectionCloud (getDevicesResult : Except Unit (List Client)) :
    Bool :=
  match getDevicesResult with
  | .ok _ => true
  | .error _ => false

/-! ## Startup (`UnifiOccupancyPlatform` constructor, `parseConfig`,
`connect`, `testConnectionAndStart`, `src/platform.ts`) -/

/-- The `config.unifi` section. JS falsy strings (`undefined` or empty)
are `none`. -/
structure UnifiSection where
  controller : Option String := none
  apiKey : Option String := none
  site : Option String := none
  secure : Option Bool := none
  useSiteManagerApi : Bool := false
  hostId : Option String := none
deriving Repr, DecidableEq

/-- Configured resident entry as `parseConfig` sees it (`name` required). -/
structure ResidentConfig where
  residentName : Option String := none
deriving Repr, DecidableEq

/-- The platform `config` object. -/
structure PlatformConfig where
  unifi : Option UnifiSection := none
  interval : Option Nat := none
  globalPresenceSensor : Option Bool := none
  residents : List ResidentConfig := []
deriving Repr, DecidableEq

/-- `parseConfig` (`src/platform.ts` lines 59–122): false when the config,
its `unifi` section, or the API key is missing, or the Site Manager API is
selected without a host id; true otherwise. It never inspects
`config.unifi.controller`. -/
def parseConfig (config : Option PlatformConfig) : Bool :=
  match config with
  | none => false
  | some c =>
    match c.unifi with
    | none => false
    | some u =>
      match u.apiKey with
      | none => false
      | some _ =>
        if u.useSiteManagerApi && u.hostId.isNone then false
        else true

/-- `config.globalPresenceSensor !== false` (line 84): defaults to true. -/
def globalSensorEnabled (c : PlatformConfig) : Bool :=
  c.globalPresenceSensor != some false

/-- The resident-initialization block (lines 89–99): a resident without a
name throws, the catch resets the list to `[]`. -/
def effectiveResidents (c : PlatformConfig) : List ResidentConfig :=
  if c.residents.all (fun r => r.residentName.isSome) then c.residents
  else []

/-- The `UniFiLiteClient` constructor throws on a local configuration with
no controller address (`config.controller.replace` on `undefined`); with
the Site Manager API it never reads `controller`. `connect` rethrows, so
the `didFinishLaunching` handler aborts before `testConnectionAndStart`. -/
def connectThrows (u : UnifiSection) : Bool :=
  !u.useSiteManagerApi && u.controller.isNone

/-- `getAlternativeConfigs` (lines 427–476) throws iff the configured
controller address is absent (`this.config.unifi.controller.replace`). -/
def alternativeConfigsThrow (u : UnifiSection) : Bool :=
  u.controller.isNone

/-- What startup did: whether `testConnection` was ever invoked, whether
the `!isConnected` alternative-configuration fallback branch ran, and
whether `refreshPeriodically` was called (periodic polling scheduled). -/
structure StartupOutcome where
  probeAttempted : Bool
  triedAlternatives : Bool
  pollingScheduled : Bool
deriving Repr, DecidableEq

/-- `testConnectionAndStart` (lines 372–425), reached only after `connect`
succeeded. `probeMain` is the outcome of `this.unifi.testConnection()`;
`altProbes` are the outcomes of the alternative clients' probes. If the
main probe fails and `getAlternativeConfigs` throws, the catch at line 420
still schedules polling. In every connected path, polling is scheduled
unless no residents are configured and the global sensor is disabled
(standby). -/
def testConnectionAndStart (u : UnifiSection) (probeMain : Bool)
    (altProbes : List Bool) (residentsNonempty globalSensor : Bool) :
    StartupOutcome :=
  if !probeMain && alternativeConfigsThrow u then
    { probeAttempted := true, triedAlternatives := true,
      pollingScheduled := true }
  else
    let isConnected := probeMain || altProbes.any id
    if !isConnected then
      { probeAttempted := true, triedAlternatives := !probeMain,
        pollingScheduled := true }
    else if residentsNonempty || globalSensor then
      { probeAttempted := true, triedAlternatives := !probeMain,
        pollingScheduled := true }
    else
      { probeAttempted := true, triedAlternatives := !probeMain,
        pollingScheduled := false }

/-- End-to-end startup control flow: constructor → `parseConfig` → (on
`didFinishLaunching`) `connect` → `testConnectionAndStart`. A false
`parseConfig` or a throwing `connect` leaves the plugin inert. -/
def startup (config : Option PlatformConfig) (probeMain : Bool)
    (altProbes : List Bool) : StartupOutcome :=
  if parseConfig config then
    match config with
    | some c =>
      match c.unifi with
      | some u =>
        if connectThrows u then
          { probeAttempted := false, triedAlternatives := false,
            pollingScheduled := false }
        else
          testConnectionAndStart u probeMain altProbes
            (!(effectiveResidents c).isEmpty) (globalSensorEnabled c)
      | none =>
        { probeAttempted := false, triedAlternatives := false,
          pollingScheduled := false }
    | none =>
      { probeAttempted := false, triedAlternatives := false,
        pollingScheduled := false }
  else
    { probeAttempted := false, triedAlternatives := false,
      pollingScheduled := false }

/-- Modelled from the spec: the MAC normalization the specification
prescribes for `matchesClient` ("normalize MAC separators/case before
comparison") — drop `:` and `-` separators and lowercase. The source
(`resident.ts` line 44) only lowercases; this definition exists to compare
the two behaviours. -/
def specNormalizeMac (s : String) : String :=
  String.mk ((jsToLower s).data.filter (fun ch => ch != ':' && ch != '-'))

/-! ## Shared lemmas -/

/-- The integer comparison used in the embedding of `updateFromClient`
agrees with the exact rational reading of the source's
`trafficBytes / 1024 >= minTrafficAmount`. -/
theorem trafficThreshold_eq_rat (m n : ℕ) :
    (1024 * m ≤ n) ↔ ((n : ℚ) / 1024 ≥ (m : ℚ)) := by
  rw [ge_iff_le, le_div_iff₀ (by norm_num : (0 : ℚ) < 1024)]
  norm_cast
  omega

/-! ## C1: conjunctive vs. disjunctive identity matching -/

/-- C1: the code evaluated at the failing input. A device with two
identity fields set (MAC and IP) whose MAC mismatches the raw record while
the IP matches: the conjunctive law of the claim — and of the project's own
README ("If multiple identifiers are provided, ALL must match for positive
identification") — requires false, but the source's four early-return
checks answer true. -/
theorem matchesClient_mismatch_still_true :
    Device.matchesClient
      { name := "phone", mac := some "aa:bb:cc:dd:ee:01",
        ip := some "10.0.0.5" }
      { mac := some "ff:ee:dd:cc:bb:aa", ip := some "10.0.0.5" } = true := by
  decide

/-- What the source actually implements: identity fields are disjunctive —
`matchesClient` is true iff at least one specified field matches its raw
counterpart (MAC and hostname case-insensitively, hostname also against the
display-name field, IP exactly). -/
theorem matchesClient_disjunctive (d : Device) (c : Client) :
    d.matchesClient c = true ↔
      (∃ dm cm, d.mac = some dm ∧ c.mac = some cm ∧
        jsToLower dm = jsToLower cm) ∨
      (∃ di ci, d.ip = some di ∧ c.ip = some ci ∧ di = ci) ∨
      (∃ dh ch, d.hostname = some dh ∧ c.hostname = some ch ∧
        jsToLower dh = jsToLower ch) ∨
      (∃ dh cn, d.hostname = some dh ∧ c.clientName = some cn ∧
        jsToLower dh = jsToLower cn) := by
  unfold Device.matchesClient
  cases hdm : d.mac <;> cases hcm : c.mac <;> cases hdi : d.ip <;>
    cases hci : c.ip <;> cases hdh : d.hostname <;> cases hch : c.hostname <;>
    cases hcn : c.clientName <;> simp [or_assoc]

/-- The disjunctive law applied at a concrete device/client. -/
theorem matchesClient_disjunctive_witness :
    Device.matchesClient { name := "w", mac := some "0A", ip := some "1.2.3.4" }
      { mac := some "0a", ip := some "9.9.9.9" } = true :=
  (matchesClient_disjunctive _ _).mpr (Or.inl ⟨"0A", "0a", rfl, rfl, by decide⟩)

/-! ## C2: single-identity-field matching -/

/-- C2 counterexample: a device whose only identity field is a MAC written
with `-` separators, against a raw record with the same MAC written with
`:` separators. Under the spec's separator-normalizing comparison the two
are equal, so the claim says `matchesClient` is true; the source only
lowercases and compares exactly, so it is false. -/
theorem matchesClient_separator_mismatch :
    Device.matchesClient { name := "phone", mac := some "AA-BB-CC-DD-EE-FF" }
      { mac := some "aa:bb:cc:dd:ee:ff" } = false ∧
    specNormalizeMac "AA-BB-CC-DD-EE-FF" =
      specNormalizeMac "aa:bb:cc:dd:ee:ff" := by decide

/-- C2 (amended): for a device with exactly one identity field set,
`matchesClient` is true iff that field matches the corresponding raw field:
MAC case-insensitively as an exact string (separators are NOT normalized),
hostname case-insensitively against the raw hostname or display-name field,
IP as an exact string; the raw counterpart must be present. -/
theorem matchesClient_single_field (d : Device) (c : Client) :
    (d.ip = none → d.hostname = none → ∀ dm, d.mac = some dm →
      (d.matchesClient c = true ↔
        ∃ cm, c.mac = some cm ∧ jsToLower dm = jsToLower cm)) ∧
    (d.mac = none → d.hostname = none → ∀ di, d.ip = some di →
      (d.matchesClient c = true ↔ c.ip = some di)) ∧
    (d.mac = none → d.ip = none → ∀ dh, d.hostname = some dh →
      (d.matchesClient c = true ↔
        (∃ ch, c.hostname = some ch ∧ jsToLower dh = jsToLower ch) ∨
        (∃ cn, c.clientName = some cn ∧ jsToLower dh = jsToLower cn))) := by
  refine ⟨?_, ?_, ?_⟩
  · intro hip hh dm hdm
    unfold Device.matchesClient
    rw [hip, hh, hdm]
    cases hcm : c.mac <;> cases hci : c.ip <;> cases hch : c.hostname <;>
      cases hcn : c.clientName <;> simp
  · intro hm hh di hdi
    unfold Device.matchesClient
    rw [hm, hh, hdi]
    cases hcm : c.mac <;> cases hci : c.ip <;> cases hch : c.hostname <;>
      cases hcn : c.clientName <;> simp <;> exact eq_comm
  · intro hm hip dh hdh
    unfold Device.matchesClient
    rw [hm, hip, hdh]
    cases hcm : c.mac <;> cases hci : c.ip <;> cases hch : c.hostname <;>
      cases hcn : c.clientName <;> simp

/-- C2 witness: the amended law applied at a concrete MAC-only device. -/
theorem matchesClient_single_field_witness :
    Device.matchesClient { name := "w2", mac := some "AB:CD" }
      { mac := some "ab:cd" } = true :=
  ((matchesClient_single_field
      { name := "w2", mac := some "AB:CD" } { mac := some "ab:cd" }).1
    rfl rfl "AB:CD" rfl).mpr ⟨"ab:cd", rfl, by decide⟩

/-! ## C3: traffic qualification -/

/-- C3 counterexample: a matched device with threshold 1 KB, a stale
`trafficBytes` of 2048 from an earlier cycle, and no retrievable traffic
sample. The claim says `trafficBytes` is replaced with 0 and the device
ends offline; the source leaves `trafficBytes` at 2048 and the device ends
online. -/
theorem updateFromClient_no_sample_keeps_traffic :
    (Device.updateFromClient
        { name := "x", minTrafficAmount := some 1, trafficBytes := 2048 }
        7 { ap_mac := some "ap" } none).isOnline = true ∧
    (Device.updateFromClient
        { name := "x", minTrafficAmount := some 1, trafficBytes := 2048 }
        7 { ap_mac := some "ap" } none).trafficBytes = 2048 := by decide

/-- C3 (amended): for a matched device with a positive threshold,
`updateFromClient` replaces `trafficBytes` with `rx + tx` when a sample was
retrieved and otherwise RETAINS the previous value (it is not zeroed), and
then sets `online` to (trafficBytes / 1024 ≥ threshold) on the resulting
value; a matched thresholded device with no retrievable sample is offline
only if its retained `trafficBytes` is below the threshold. -/
theorem updateFromClient_traffic_qualification (d : Device) (now : Nat)
    (c : Client) (tr : Option TrafficData) (m : Nat)
    (hm : d.minTrafficAmount = some m) (hpos : 0 < m) :
    ((d.updateFromClient now c tr).trafficBytes =
      match tr with
      | some t => t.rx_bytes + t.tx_bytes
      | none => d.trafficBytes) ∧
    ((d.updateFromClient now c tr).isOnline =
      decide (1024 * m ≤ (d.updateFromClient now c tr).trafficBytes)) := by
  unfold Device.updateFromClient
  cases tr <;> simp [hm, hpos, Nat.pos_iff_ne_zero]

/-- C3 witness: the amended law applied at a device with threshold 50 KB
and a retrieved sample of 40000 + 12000 bytes (≈ 50.8 KB). -/
theorem updateFromClient_traffic_qualification_witness :
    (Device.updateFromClient { name := "x", minTrafficAmount := some 50 }
        5 {} (some { rx_bytes := 40000, tx_bytes := 12000 })).trafficBytes =
      52000 ∧
    (Device.updateFromClient { name := "x", minTrafficAmount := some 50 }
        5 {} (some { rx_bytes := 40000, tx_bytes := 12000 })).isOnline =
      true := by
  have h := updateFromClient_traffic_qualification
    { name := "x", minTrafficAmount := some 50 } 5 {}
    (some { rx_bytes := 40000, tx_bytes := 12000 }) 50 rfl (by decide)
  exact ⟨h.1, by rw [h.2, h.1]; decide⟩

/-! ## C6: location occupancy -/

/-- C6 counterexample: a location whose MAC is set, and a resident with a
device associated to that MAC but offline. The claim says occupancy is
true (it only requires `currentLocationId` to match); the source's
`getDevicesAtAccessPoint` also requires the device to be online, so
occupancy is false. -/
theorem updatePresence_requires_online :
    (WifiPoint.updatePresence { name := "lr", mac := some "aa" }
      [{ name := "j", devices :=
          [{ name := "p", isOnline := false,
             currentAccessPoint := some "aa" }] }]).hasResidents = false := by
  decide

/-- C6 (amended): updating a location's occupancy yields false whenever its
MAC is unset, and otherwise yields true iff some resident has some ONLINE
device whose current access point equals the location's MAC. -/
theorem updatePresence_occupied_iff (w : WifiPoint)
    (residents : List Resident) :
    (w.updatePresence residents).hasResidents = true ↔
      ∃ m, w.mac = some m ∧ ∃ r ∈ residents, ∃ d ∈ r.devices,
        d.isOnline = true ∧ d.currentAccessPoint = some m := by
  cases hm : w.mac <;>
    simp [WifiPoint.updatePresence, hm, Resident.getDevicesAtAccessPoint,
      List.length_pos, List.filter_eq_nil_iff, List.any_eq_true]

/-- C6 witness: the amended law applied at a concrete location with an
online associated device. -/
theorem updatePresence_occupied_iff_witness :
    (WifiPoint.updatePresence { name := "lr2", mac := some "bb" }
      [{ name := "j2", devices :=
          [{ name := "q", isOnline := true,
             currentAccessPoint := some "bb" }] }]).hasResidents = true :=
  (updatePresence_occupied_iff _ _).mpr ⟨"bb", rfl, by decide⟩

/-! ## C8: the unmatched-device path of `refresh` -/

/-- Resetting the mutable fields does not change what `matchesClient`
reads, so the reset device matches exactly the clients the original did. -/
theorem matchesClient_reset (d : Device) (c : Client) (b : Bool)
    (p : Option String) :
    Device.matchesClient { d with isOnline := b, currentAccessPoint := p } c
      = d.matchesClient c := rfl

/-- C8: a device matching no fetched client ends the cycle with
`online = false` and a cleared access point while `lastSeen` and
`trafficBytes` are untouched, and the per-device update is idempotent on
this input. -/
theorem refreshDevice_unmatched (now : Nat) (clients : List Client)
    (traffic : Option String → Option TrafficData) (d : Device)
    (h : clients.find? (fun c => d.matchesClient c) = none) :
    refreshDevice now clients traffic d =
      { d with isOnline := false, currentAccessPoint := none } ∧
    (refreshDevice now clients traffic d).lastSeen = d.lastSeen ∧
    (refreshDevice now clients traffic d).trafficBytes = d.trafficBytes ∧
    refreshDevice now clients traffic (refreshDevice now clients traffic d) =
      refreshDevice now clients traffic d := by
  have h2 : (clients.find? fun c =>
      Device.matchesClient
        { d with isOnline := false, currentAccessPoint := none } c) = none := h
  have h1 : refreshDevice now clients traffic d =
      { d with isOnline := false, currentAccessPoint := none } := by
    simp only [refreshDevice]
    rw [h2]
  have h3 : refreshDevice now clients traffic
      { d with isOnline := false, currentAccessPoint := none } =
      { d with isOnline := false, currentAccessPoint := none } := by
    simp only [refreshDevice]
    rw [h2]
  exact ⟨h1, by rw [h1], by rw [h1], by rw [h1, h3]⟩

/-- C8 witness: the unmatched path at a concrete device (MAC-identified,
stale `lastSeen`/`trafficBytes`) against a client list that does not
match it. -/
theorem refreshDevice_unmatched_witness :
    refreshDevice 9 [{ mac := some "bb:bb" }] (fun _ => none)
        { name := "p", mac := some "aa:aa", lastSeen := some 3,
          isOnline := true, currentAccessPoint := some "ap",
          trafficBytes := 77 } =
      { name := "p", mac := some "aa:aa", lastSeen := some 3,
        isOnline := false, currentAccessPoint := none,
        trafficBytes := 77 } :=
  (refreshDevice_unmatched 9 [{ mac := some "bb:bb" }] (fun _ => none)
    { name := "p", mac := some "aa:aa", lastSeen := some 3,
      isOnline := true, currentAccessPoint := some "ap",
      trafficBytes := 77 } (by decide)).1

/-! ## C4: endpoint discovery keeps no session state -/

/-- Characterization of the sequential fallback loop: either some endpoint
is the first to succeed — everything before it failed, the loop returns
its payload, and exactly the prefix up to it was attempted — or every
endpoint fails, the loop returns nothing, and every endpoint was
attempted. -/
theorem tryEndpoints_spec (get : String → Option α) (l : List String) :
    (∃ pre e post r, l = pre ++ e :: post ∧
      (∀ e' ∈ pre, get e' = none) ∧ get e = some r ∧
      tryEndpoints get l = some (e, r) ∧
      attemptedEndpoints get l = pre ++ [e]) ∨
    ((∀ e ∈ l, get e = none) ∧ tryEndpoints get l = none ∧
      attemptedEndpoints get l = l) := by
  induction l with
  | nil => right; exact ⟨by simp, rfl, rfl⟩
  | cons e rest ih =>
    cases hg : get e with
    | some r =>
      left
      exact ⟨[], e, rest, r, by simp, by simp, hg,
        by simp [tryEndpoints, hg], by simp [attemptedEndpoints, hg]⟩
    | none =>
      rcases ih with ⟨pre, e', post, r, hl, hpre, hge, htry, hatt⟩ |
        ⟨hall, htry, hatt⟩
      · left
        refine ⟨e :: pre, e', post, r, by simp [hl], ?_, hge,
          by simp [tryEndpoints, hg, htry],
          by simp [attemptedEndpoints, hg, hatt]⟩
        intro x hx
        rcases List.mem_cons.mp hx with hx | hx
        · exact hx ▸ hg
        · exact hpre x hx
      · right
        refine ⟨?_, by simp [tryEndpoints, hg, htry],
          by simp [attemptedEndpoints, hg, hatt]⟩
        intro x hx
        rcases List.mem_cons.mp hx with hx | hx
        · exact hx ▸ hg
        · exact hall x hx

/-- C4 (amended): `getClients` keeps no per-session endpoint state — it is
a pure function of the call's own network outcomes. Every call probes the
fixed candidate list in order from the first variant and returns the first
successful variant's payload of that call (the empty list if all fail);
no previously successful variant is skipped to. -/
theorem getClientsLocal_first_success
    (get : String → Option (List Client)) (site : String) :
    (∃ pre e post r, clientEndpoints site = pre ++ e :: post ∧
      (∀ e' ∈ pre, get e' = none) ∧ get e = some r ∧
      getClientsLocal get site = .ok r ∧
      attemptedEndpoints get (clientEndpoints site) = pre ++ [e]) ∨
    ((∀ e ∈ clientEndpoints site, get e = none) ∧
      getClientsLocal get site = .ok [] ∧
      attemptedEndpoints get (clientEndpoints site) = clientEndpoints site)
    := by
  rcases tryEndpoints_spec get (clientEndpoints site) with
    ⟨pre, e, post, r, hl, hpre, hge, htry, hatt⟩ | ⟨hall, htry, hatt⟩
  · exact Or.inl ⟨pre, e, post, r, hl, hpre, hge,
      by simp [getClientsLocal, htry], hatt⟩
  · exact Or.inr ⟨hall, by simp [getClientsLocal, htry], hatt⟩

/-- Oracle of the C4 scenario: the first three candidate client-listing
endpoints return HTTP 404 (rejected), the fourth succeeds. -/
def c4Oracle : String → Option (List Client) :=
  fun e => if e = "/api/stat/sta" then some [{ mac := some "aa" }] else none

/-- C4 counterexample: in the spec's fallback scenario (first three
variants 404, fourth succeeds) a first `getClients` call succeeds at the
fourth variant — yet the next call under the same outcomes attempts the
first three variants again, because no variant is remembered: the
attempted-endpoint list of every call with these outcomes starts at the
first candidate. -/
theorem getClients_reprobes_counterexample :
    tryEndpoints c4Oracle (clientEndpoints "default") =
      some ("/api/stat/sta", [{ mac := some "aa" }]) ∧
    getClientsLocal c4Oracle "default" = .ok [{ mac := some "aa" }] ∧
    attemptedEndpoints c4Oracle (clientEndpoints "default") =
      [ "/api/s/default/clients/active"
      , "/api/s/default/stat/alluser"
      , "/api/s/default/stat/sta"
      , "/api/stat/sta" ] := ⟨rfl, rfl, rfl⟩

/-! ## C5: the connectivity probe's fallback chain -/

/-- C5 counterexample: with every endpoint of every resource rejecting
(e.g. the controller is unreachable), the claim says the probe returns
false; the local probe returns true, because its first step `getSites`
swallows all failures and resolves to a default-site list. -/
theorem testConnection_all_endpoints_fail :
    testConnectionLocal (fun _ => none) (fun _ => none) (fun _ => none)
      "default" = true := rfl

/-- C5 (amended): `testConnection` falls back across sites, then access
points, then the raw client list (not clients first), returning true at
the first call that resolves; for the local backend the sites step cannot
reject (it degrades to a default-site list), so the probe returns true for
every network outcome, and for the Site Manager backend the probe is a
single managed-devices fetch, true iff it resolves. -/
theorem testConnection_probe_chain :
    (∀ (getS : String → Option (List Site))
      (getD : String → Option (List AccessPoint))
      (getC : String → Option (List Client)) (site : String),
      testConnectionLocal getS getD getC site = true) ∧
    (∀ r : Except Unit (List Client),
      testConnectionCloud r = true ↔ ∃ l, r = .ok l) := by
  constructor
  · intro getS getD getC site
    rfl
  · intro r
    cases r <;> simp [testConnectionCloud]

/-! ## C10: the local probe can never report false -/

/-- In every path of `testConnectionAndStart` entered with a successful
main probe, the alternative-configuration branch is skipped. -/
theorem testConnectionAndStart_probe_true (u : UnifiSection)
    (altProbes : List Bool) (rne gs : Bool) :
    (testConnectionAndStart u true altProbes rne gs).triedAlternatives
      = false := by
  unfold testConnectionAndStart
  cases h : rne || gs <;> simp [h]

/-- In every path of `startup` entered with a successful main probe, the
alternative-configuration branch is skipped. -/
theorem startup_probe_true_no_alternatives (config : Option PlatformConfig)
    (altProbes : List Bool) :
    (startup config true altProbes).triedAlternatives = false := by
  unfold startup
  cases config with
  | none => simp [parseConfig]
  | some c =>
    cases hu : c.unifi with
    | none => simp [parseConfig, hu]
    | some u =>
      cases hk : u.apiKey with
      | none => simp [parseConfig, hu, hk]
      | some k =>
        by_cases hsm : (u.useSiteManagerApi && u.hostId.isNone) = true
        · simp [parseConfig, hu, hk, hsm]
        · by_cases hct : connectThrows u = true <;>
            simp [parseConfig, hu, hk, hsm, hct,
              testConnectionAndStart_probe_true]

/-- C10: for a local (non-Site-Manager) session the connectivity probe
returns true regardless of network outcome — `getSites` absorbs every
per-endpoint failure into a default-site result — and consequently, with
the probe's result fed into startup, the alternative-configuration
fallback branch is never entered. -/
theorem localProbe_true_no_alternative_fallback
    (getS : String → Option (List Site))
    (getD : String → Option (List AccessPoint))
    (getC : String → Option (List Client)) (site : String)
    (config : Option PlatformConfig) (altProbes : List Bool) :
    testConnectionLocal getS getD getC site = true ∧
    (startup config (testConnectionLocal getS getD getC site)
        altProbes).triedAlternatives = false :=
  ⟨rfl, startup_probe_true_no_alternatives config altProbes⟩

/-! ## C7: fatal configuration errors at startup -/

/-- Cloud configuration with API key and host id but no controller
address. -/
def c7CloudUnifi : UnifiSection :=
  { controller := none
    apiKey := some "key"
    useSiteManagerApi := true
    hostId := some "h" }

def c7CloudConfig : Option PlatformConfig :=
  some { unifi := some c7CloudUnifi }

/-- C7 counterexample: with the Site Manager backend selected, an API key
and a host id, a MISSING controller address is not treated as fatal: the
probe is attempted and polling is scheduled (whatever the probe returns),
contradicting the claim that a missing controller address leaves the
plugin inert. -/
theorem startup_cloud_missing_controller :
    (startup c7CloudConfig true []).probeAttempted = true ∧
    (startup c7CloudConfig true []).pollingScheduled = true ∧
    (startup c7CloudConfig false []).pollingScheduled = true := by decide

/-- C7 (amended): a missing API key and a cloud selection without host id
are rejected by `parseConfig` and leave the plugin inert (no probe, no
polling, no retry); a missing controller address leaves the plugin inert
only when the LOCAL backend is selected (the client constructor throws
before any probe) — with the cloud backend the controller address is
unused at startup. -/
theorem startup_config_fatal (config : Option PlatformConfig)
    (probeMain : Bool) (altProbes : List Bool) (c : PlatformConfig)
    (u : UnifiSection) (hc : config = some c) (hu : c.unifi = some u) :
    (u.apiKey = none → startup config probeMain altProbes =
      { probeAttempted := false, triedAlternatives := false,
        pollingScheduled := false }) ∧
    (u.useSiteManagerApi = true → u.hostId = none →
      startup config probeMain altProbes =
      { probeAttempted := false, triedAlternatives := false,
        pollingScheduled := false }) ∧
    (u.useSiteManagerApi = false → u.controller = none →
      startup config probeMain altProbes =
      { probeAttempted := false, triedAlternatives := false,
        pollingScheduled := false }) := by
  subst hc
  refine ⟨?_, ?_, ?_⟩
  · intro hk
    simp [startup, parseConfig, hu, hk]
  · intro hsm hh
    cases hk : u.apiKey with
    | none => simp [startup, parseConfig, hu, hk]
    | some k => simp [startup, parseConfig, hu, hk, hsm, hh]
  · intro hsm hctl
    cases hk : u.apiKey with
    | none => simp [startup, parseConfig, hu, hk]
    | some k => simp [startup, parseConfig, connectThrows, hu, hk, hsm, hctl]

/-- Local configuration with a controller address but no API key. -/
def c7LocalConfig : Option PlatformConfig :=
  some { unifi := some { controller := some "https://192.168.1.1" } }

/-- C7 witness: the amended law applied at a local configuration with no
API key — startup is inert. -/
theorem startup_config_fatal_witness :
    startup c7LocalConfig true [] =
      { probeAttempted := false, triedAlternatives := false,
        pollingScheduled := false } :=
  (startup_config_fatal c7LocalConfig true [] _ _ rfl rfl).1 rfl

/-! ## C9: per-resource fetch failure within a cycle -/

/-- The end-to-end scenario client: John's phone, associated to the living
room access point. -/
def c9Client : Client :=
  { mac := some "aa:bb:cc:dd:ee:ff", ap_mac := some "11:22:33:44:55:66" }

/-- State before the cycle: one resident with one MAC-identified device,
one location with a configured MAC. -/
def c9State : PlatformState :=
  { residents :=
      [ { name := "John"
          devices := [{ name := "phone", mac := some "aa:bb:cc:dd:ee:ff" }] } ]
    wifiPoints :=
      [ { name := "Living Room"
          mac := some "11:22:33:44:55:66" } ] }

/-- C9 counterexample: the access-point fetch fails on every endpoint and
degrades to an empty list, the cycle completes and the resident comes
home — but the location does NOT resolve `occupied = false` as the claim
demands: its configured MAC still matches the online device's association,
so occupancy is true. -/
theorem refresh_ap_failure_occupied :
    getNetworkDevicesLocal (fun _ => none) "default" = .ok [] ∧
    ((refresh 3 (.ok [c9Client])
        (getNetworkDevicesLocal (fun _ => none) "default")
        (fun _ => none) c9State).residents.map (fun r => r.isHome))
      = [true] ∧
    ((refresh 3 (.ok [c9Client])
        (getNetworkDevicesLocal (fun _ => none) "default")
        (fun _ => none) c9State).wifiPoints.map (fun w => w.hasResidents))
      = [true] := by
  refine ⟨rfl, ?_, ?_⟩ <;> decide

/-- Resolving against an empty access-point list changes nothing. -/
theorem resolveWifiPointMac_nil (w : WifiPoint) :
    resolveWifiPointMac [] w = w := rfl

/-- C9 (amended): when every access-point endpoint fails, the local fetch
degrades to an empty list and the cycle is not aborted: residents are
still updated from the fetched clients, each location recomputes occupancy
against the updated residents, and a location whose MAC is unset resolves
`occupied = false` — but a location with a configured (or previously
resolved) MAC keeps computing occupancy from the devices' current
associations, so it need not be false. -/
theorem refresh_ap_failure_degrades (now : Nat) (st : PlatformState)
    (traffic : Option String → Option TrafficData)
    (gD : String → Option (List AccessPoint)) (site : String)
    (hfail : ∀ e, gD e = none) :
    getNetworkDevicesLocal gD site = .ok [] ∧
    (∀ clients, (refresh now (.ok clients)
        (getNetworkDevicesLocal gD site) traffic st).residents =
      st.residents.map (refreshResident now clients traffic)) ∧
    (∀ clients, (refresh now (.ok clients)
        (getNetworkDevicesLocal gD site) traffic st).wifiPoints =
      st.wifiPoints.map (fun w => w.updatePresence
        (st.residents.map (refreshResident now clients traffic)))) ∧
    (∀ (w : WifiPoint) (residents : List Resident), w.mac = none →
      (w.updatePresence residents).hasResidents = false) := by
  have hempty : getNetworkDevicesLocal gD site = .ok [] := by
    simp [getNetworkDevicesLocal, deviceEndpoints, tryEndpoints, hfail]
  refine ⟨hempty, ?_, ?_, ?_⟩
  · intro clients
    rw [hempty]
    rfl
  · intro clients
    rw [hempty]
    show (refreshCycleBody now clients [] traffic st).wifiPoints = _
    simp [refreshCycleBody, List.map_map, Function.comp_def,
      resolveWifiPointMac_nil]
  · intro w residents hm
    simp [WifiPoint.updatePresence, hm]

/-- C9 witness: the amended law applied at the concrete scenario state with
an all-failing access-point oracle. -/
theorem refresh_ap_failure_degrades_witness :
    getNetworkDevicesLocal (fun _ => none) "site0" = .ok [] :=
  (refresh_ap_failure_degrades 0 c9State (fun _ => none) (fun _ => none)
    "site0" (fun _ => rfl)).1

end UnifiOccupancy
